import Mathlib

/-!
Shallow embedding of `crates/rustc_codegen_spirv/src/attr.rs`:
the `#[spirv(...)]` attribute vocabulary, the per-node aggregation of
parsed attributes, the position-legality checks performed by
`CheckSpirvAttrVisitor::check_spirv_attributes`, and the codegen-time
re-aggregation `AggregatedSpirvAttributes::parse`.

Host-compiler types (`Span`, the SPIR-V enums from `rspirv`, `Target`,
`MethodKind`) are opaque to this code: spans and enum payloads are
modelled as natural numbers / simple enumerations, since `attr.rs` only
copies them around.  Attribute parsing (`crate::symbols::
parse_attrs_for_checking`, a sibling module not under scrutiny here)
yields, per raw attribute, either a parsed `(Span, SpirvAttribute)` pair
or a `(Span, message)` error; the checking and aggregation code consumes
only that stream, so the embedding takes the list of parse results as
input.
-/

/-- Source location, opaque to `attr.rs`; modelled as a natural number. -/
abbrev Span := Nat

/-- `rspirv::spirv::StorageClass`, opaque enum payload. -/
abbrev StorageClass := Nat

/-- `rspirv::spirv::BuiltIn`, opaque enum payload. -/
abbrev BuiltIn := Nat

/-- `rspirv::spirv::ExecutionModel`, opaque enum payload. -/
abbrev ExecutionModel := Nat

/-- `rspirv::spirv::ExecutionMode`, opaque enum payload. -/
abbrev ExecutionMode := Nat

/-- `rspirv::spirv::Dim`, opaque enum payload. -/
abbrev Dim := Nat

/-- `rspirv::spirv::ImageFormat`, opaque enum payload. -/
abbrev ImageFormat := Nat

/-- `rspirv::spirv::AccessQualifier`, opaque enum payload. -/
abbrev AccessQualifier := Nat

/-- `rustc_span::Symbol`, an interned string (the name `Symbol` is taken
in Lean's root namespace). -/
abbrev RustcSymbol := String

/-- `struct ExecutionModeExtra { args: [u32; 3], len: u8 }`.
The fixed-size array is modelled as a list that is always of length 3
(maintained by the only constructor, `ExecutionModeExtra.new`). -/
structure ExecutionModeExtra where
  args : List Nat
  len : Nat
deriving DecidableEq, Repr

/-- `ExecutionModeExtra::new`: copies the input slice into a zeroed
`[u32; 3]` and records the length.  `args[.._args.len()].copy_from_slice(_args)`
panics when the input slice is longer than 3, modelled as `none`. -/
def ExecutionModeExtra.new (a : List Nat) : Option ExecutionModeExtra :=
  if a.length ≤ 3 then
    some { args := a ++ List.replicate (3 - a.length) 0, len := a.length }
  else
    none

/-- `impl AsRef<[u32]> for ExecutionModeExtra`: `&self.args[..self.len as _]`. -/
def ExecutionModeExtra.as_ref (self : ExecutionModeExtra) : List Nat :=
  self.args.take self.len

/-- `struct Entry { execution_model, execution_modes, name }`. -/
structure Entry where
  execution_model : ExecutionModel
  execution_modes : List (ExecutionMode × ExecutionModeExtra)
  name : Option RustcSymbol
deriving DecidableEq, Repr

/-- `impl From<ExecutionModel> for Entry`. -/
def Entry.fromExecutionModel (execution_model : ExecutionModel) : Entry :=
  { execution_model, execution_modes := [], name := none }

/-- `enum IntrinsicType`: struct types representing special SPIR-V types. -/
inductive IntrinsicType where
  | ImageType (dim : Dim) (depth arrayed multisampled sampled : Nat)
      (image_format : ImageFormat) (access_qualifier : Option AccessQualifier)
  | Sampler
  | SampledImage
deriving DecidableEq, Repr

/-- `enum SpirvAttribute`: the parsed `#[spirv(...)]` attribute vocabulary. -/
inductive SpirvAttribute where
  | IntrinsicType (t : IntrinsicType)
  | Block
  | Entry (e : Entry)
  | StorageClass (s : StorageClass)
  | Builtin (b : BuiltIn)
  | DescriptorSet (n : Nat)
  | Binding (n : Nat)
  | Flat
  | UnrollLoops
deriving DecidableEq, Repr

/-- `struct Spanned<T> { value, span }`. -/
structure Spanned (T : Type) where
  value : T
  span : Span
deriving DecidableEq, Repr

/-- `struct AggregatedSpirvAttributes`: one optional slot per attribute
category. -/
structure AggregatedSpirvAttributes where
  intrinsic_type : Option (Spanned IntrinsicType)
  block : Option (Spanned Unit)
  entry : Option (Spanned Entry)
  storage_class : Option (Spanned StorageClass)
  builtin : Option (Spanned BuiltIn)
  descriptor_set : Option (Spanned Nat)
  binding : Option (Spanned Nat)
  flat : Option (Spanned Unit)
  unroll_loops : Option (Spanned Unit)
deriving DecidableEq, Repr

/-- `AggregatedSpirvAttributes::default()` (the `#[derive(Default)]`):
every slot empty. -/
def AggregatedSpirvAttributes.default : AggregatedSpirvAttributes :=
  { intrinsic_type := none, block := none, entry := none,
    storage_class := none, builtin := none, descriptor_set := none,
    binding := none, flat := none, unroll_loops := none }

/-- `struct MultipleAttrs { prev_span, category }`: the conflict payload
returned by `try_insert_attr`. -/
structure MultipleAttrs where
  prev_span : Span
  category : String
deriving DecidableEq, Repr

/-- The local `fn try_insert` helper inside `try_insert_attr`: fills an
empty slot, or reports a conflict carrying the previous span and the
category label, leaving the slot unchanged.  Returns the (possibly
updated) slot alongside the `Result`. -/
def try_insert {T : Type} (slot : Option (Spanned T)) (value : T) (span : Span)
    (category : String) : Option (Spanned T) × Except MultipleAttrs Unit :=
  match slot with
  | some prev => (some prev, .error { prev_span := prev.span, category })
  | none => (some { value, span }, .ok ())

/-- `AggregatedSpirvAttributes::try_insert_attr`: dispatches the parsed
attribute to its category's slot via `try_insert`.  Returns the updated
aggregate alongside the `Result`. -/
def AggregatedSpirvAttributes.try_insert_attr (self : AggregatedSpirvAttributes)
    (attr : SpirvAttribute) (span : Span) :
    AggregatedSpirvAttributes × Except MultipleAttrs Unit :=
  match attr with
  | .IntrinsicType value =>
      let r := try_insert self.intrinsic_type value span "intrinsic type"
      ({ self with intrinsic_type := r.1 }, r.2)
  | .Block =>
      let r := try_insert self.block () span "#[spirv(block)]"
      ({ self with block := r.1 }, r.2)
  | .Entry value =>
      let r := try_insert self.entry value span "entry-point"
      ({ self with entry := r.1 }, r.2)
  | .StorageClass value =>
      let r := try_insert self.storage_class value span "storage class"
      ({ self with storage_class := r.1 }, r.2)
  | .Builtin value =>
      let r := try_insert self.builtin value span "builtin"
      ({ self with builtin := r.1 }, r.2)
  | .DescriptorSet value =>
      let r := try_insert self.descriptor_set value span "#[spirv(descriptor_set)]"
      ({ self with descriptor_set := r.1 }, r.2)
  | .Binding value =>
      let r := try_insert self.binding value span "#[spirv(binding)]"
      ({ self with binding := r.1 }, r.2)
  | .Flat =>
      let r := try_insert self.flat () span "#[spirv(flat)]"
      ({ self with flat := r.1 }, r.2)
  | .UnrollLoops =>
      let r := try_insert self.unroll_loops () span "#[spirv(unroll_loops)]"
      ({ self with unroll_loops := r.1 }, r.2)

/-- The nine attribute categories (one per `AggregatedSpirvAttributes`
slot / `SpirvAttribute` variant). -/
inductive Category where
  | intrinsicType | block | entry | storageClass | builtin
  | descriptorSet | binding | flat | unrollLoops
deriving DecidableEq, Repr

/-- The category (slot) an attribute variant belongs to. -/
def SpirvAttribute.cat : SpirvAttribute → Category
  | .IntrinsicType _ => .intrinsicType
  | .Block => .block
  | .Entry _ => .entry
  | .StorageClass _ => .storageClass
  | .Builtin _ => .builtin
  | .DescriptorSet _ => .descriptorSet
  | .Binding _ => .binding
  | .Flat => .flat
  | .UnrollLoops => .unrollLoops

/-- The human-readable category label `try_insert_attr` passes for each
variant. -/
def categoryLabel : Category → String
  | .intrinsicType => "intrinsic type"
  | .block => "#[spirv(block)]"
  | .entry => "entry-point"
  | .storageClass => "storage class"
  | .builtin => "builtin"
  | .descriptorSet => "#[spirv(descriptor_set)]"
  | .binding => "#[spirv(binding)]"
  | .flat => "#[spirv(flat)]"
  | .unrollLoops => "#[spirv(unroll_loops)]"

/-- Uniform read-only view of one slot of the aggregate, re-wrapping the
stored payload in its `SpirvAttribute` constructor so slots of different
payload types can be compared in one statement. -/
def AggregatedSpirvAttributes.slot (self : AggregatedSpirvAttributes) :
    Category → Option (Spanned SpirvAttribute)
  | .intrinsicType => self.intrinsic_type.map fun s => { value := .IntrinsicType s.value, span := s.span }
  | .block => self.block.map fun s => { value := .Block, span := s.span }
  | .entry => self.entry.map fun s => { value := .Entry s.value, span := s.span }
  | .storageClass => self.storage_class.map fun s => { value := .StorageClass s.value, span := s.span }
  | .builtin => self.builtin.map fun s => { value := .Builtin s.value, span := s.span }
  | .descriptorSet => self.descriptor_set.map fun s => { value := .DescriptorSet s.value, span := s.span }
  | .binding => self.binding.map fun s => { value := .Binding s.value, span := s.span }
  | .flat => self.flat.map fun s => { value := .Flat, span := s.span }
  | .unrollLoops => self.unroll_loops.map fun s => { value := .UnrollLoops, span := s.span }

/-- Runs a sequence of `try_insert_attr` calls on an aggregate, collecting
each call's `Result` in order. -/
def run_inserts (agg : AggregatedSpirvAttributes)
    (xs : List (SpirvAttribute × Span)) :
    AggregatedSpirvAttributes × List (Except MultipleAttrs Unit) :=
  match xs with
  | [] => (agg, [])
  | (a, s) :: rest =>
      let step := agg.try_insert_attr a s
      let out := run_inserts step.1 rest
      (out.1, step.2 :: out.2)

/-- `rustc_hir::MethodKind`: `Trait { body: bool }` or `Inherent`. -/
inductive MethodKind where
  | Trait (body : Bool)
  | Inherent
deriving DecidableEq, Repr

/-- `rustc_hir::Target`: the semantic classification of a syntax position
(host-compiler enum; the variants used and matched by `attr.rs`, plus the
remaining host variants any visited node can classify to). -/
inductive Target where
  | ExternCrate | Use | Static | Const | Fn | Closure | Mod | ForeignMod
  | GlobalAsm | TyAlias | OpaqueTy | Enum | Variant | Struct | Field | Union
  | Trait | TraitAlias | Impl | Expression | Statement | Arm | AssocConst
  | Method (k : MethodKind) | AssocTy | ForeignFn | ForeignStatic | ForeignTy
  | GenericParam | MacroDef | Param
deriving DecidableEq, Repr

/-- One element of the stream produced by
`crate::symbols::parse_attrs_for_checking`: either the span and parsed
attribute, or the span and error message of a malformed annotation. -/
abbrev ParseAttrResult := Except (Span × String) (Span × SpirvAttribute)

/-- The diagnostics `attr.rs` can emit, as structured data:
`span_err` for parse errors, illegal positions, the orphaned-parameter
message, and macro-level `#[spirv(..)]`; `struct_span_err` + `span_note`
for conflicts; `delay_span_bug` for the codegen-path internal errors. -/
inductive Diagnostic where
  | parseError (span : Span) (msg : String)
  | illegalPosition (span : Span) (expected : String) (actual : Target)
  | orphanedParam (span : Span)
  | conflict (span : Span) (category : String) (actual : Target) (note_span : Span)
  | macroLevelSpirv (span : Span)
  | delayedBug (span : Span) (msg : String)
deriving DecidableEq, Repr

/-- Whether a diagnostic is a `delay_span_bug` (internal-invariant
violation) as opposed to a user-facing error. -/
def Diagnostic.isDelayedBug : Diagnostic → Bool
  | .delayedBug _ _ => true
  | _ => false

/-- The `parent_is_entry_point` computation in `check_spirv_attributes`:
over the parent node's parse results, keep only the `Ok` ones
(`filter_map(|(_, r)| r.ok())`) and test whether any parsed to
`SpirvAttribute::Entry`. -/
def parent_is_entry_point (parent_attrs : List ParseAttrResult) : Bool :=
  parent_attrs.any fun r =>
    match r with
    | .ok (_, .Entry _) => true
    | _ => false

/-- The `valid_target` match in `check_spirv_attributes`: per attribute
category, either `ok` (carrying the diagnostics emitted inside the legal
branch — only the orphaned-parameter error, for parameter attributes on a
non-entry-point function's parameter) or the `Expected` description of
the legal position. -/
def valid_target (attr : SpirvAttribute) (target : Target)
    (parentIsEntryPoint : Bool) (span : Span) :
    Except String (List Diagnostic) :=
  match attr with
  | .IntrinsicType _ | .Block =>
      match target with
      | .Struct => .ok []
      | _ => .error "struct"
  | .Entry _ =>
      match target with
      | .Fn | .Method (.Trait true) | .Method .Inherent => .ok []
      | _ => .error "function"
  | .StorageClass _ | .Builtin _ | .DescriptorSet _ | .Binding _ | .Flat =>
      match target with
      | .Param =>
          .ok (if parentIsEntryPoint then [] else [.orphanedParam span])
      | _ => .error "function parameter"
  | .UnrollLoops =>
      match target with
      | .Fn | .Closure | .Method (.Trait true) | .Method .Inherent => .ok []
      | _ => .error "function or closure"

/-- One iteration of the attribute loop in `check_spirv_attributes`:
parse errors become `span_err` diagnostics; then `valid_target` either
yields the illegal-position diagnostic (skipping aggregation) or admits
the attribute to `try_insert_attr`, whose conflict becomes the
two-location conflict diagnostic. -/
def check_step (target : Target) (parentIsEntryPoint : Bool)
    (st : AggregatedSpirvAttributes × List Diagnostic) (r : ParseAttrResult) :
    AggregatedSpirvAttributes × List Diagnostic :=
  match r with
  | .error (span, msg) => (st.1, st.2 ++ [.parseError span msg])
  | .ok (span, attr) =>
      match valid_target attr target parentIsEntryPoint span with
      | .error expected =>
          (st.1, st.2 ++ [.illegalPosition span expected target])
      | .ok ds =>
          match st.1.try_insert_attr attr span with
          | (agg, .ok ()) => (agg, st.2 ++ ds)
          | (agg, .error m) =>
              (agg, st.2 ++ ds ++ [.conflict span m.category target m.prev_span])

/-- `CheckSpirvAttrVisitor::check_spirv_attributes` for one node: the
node's classified target, the parse results of its own attributes, and
the parse results of its parent node's attributes (consulted only for
`Target::Param`).  Produces the aggregate built during checking and the
emitted diagnostics, in order. -/
def check_spirv_attributes (target : Target)
    (attrs parent_attrs : List ParseAttrResult) :
    AggregatedSpirvAttributes × List Diagnostic :=
  attrs.foldl (check_step target (parent_is_entry_point parent_attrs))
    (AggregatedSpirvAttributes.default, [])

/-- One iteration of the loop in `AggregatedSpirvAttributes::parse`
(the codegen path): parse errors and insertion conflicts are reported
via `delay_span_bug` and the annotation is skipped. -/
def parse_step (st : AggregatedSpirvAttributes × List Diagnostic)
    (r : ParseAttrResult) : AggregatedSpirvAttributes × List Diagnostic :=
  match r with
  | .error (span, msg) => (st.1, st.2 ++ [.delayedBug span msg])
  | .ok (span, attr) =>
      match st.1.try_insert_attr attr span with
      | (agg, .ok ()) => (agg, st.2)
      | (agg, .error m) =>
          (agg, st.2 ++ [.delayedBug span ("multiple " ++ m.category ++ " attributes")])

/-- `AggregatedSpirvAttributes::parse`: folds `parse_step` over the parse
results of a node's attributes, returning the aggregate and the delayed
bugs raised along the way. -/
def AggregatedSpirvAttributes.parse (attrs : List ParseAttrResult) :
    AggregatedSpirvAttributes × List Diagnostic :=
  attrs.foldl parse_step (AggregatedSpirvAttributes.default, [])

/-- `rustc_ast::Attribute`, reduced to what
`check_invalid_macro_level_spirv_attr` reads: its name (via
`check_name(attr, sym.spirv)`) and its span. -/
structure Attribute where
  name : String
  span : Span
deriving DecidableEq, Repr

/-- `check_invalid_macro_level_spirv_attr`: every attribute named `spirv`
among the non-exported macro attributes is rejected with
"#[spirv(..)] cannot be applied to a macro". -/
def check_invalid_macro_level_spirv_attr (attrs : List Attribute) :
    List Diagnostic :=
  attrs.foldl
    (fun ds attr =>
      if attr.name = "spirv" then ds ++ [.macroLevelSpirv attr.span] else ds)
    []

/-- The `check_mod_attrs` provider installed by `provide`: abstracting the
host's default check and this pass's `check_mod_attrs` as
diagnostic-producing functions of the module, the installed provider runs
the default check first and then the SPIR-V check on the same module,
concatenating what they emit. -/
def provided_check_mod_attrs (default_check_mod_attrs : Nat → List Diagnostic)
    (spirv_check_mod_attrs : Nat → List Diagnostic) (module_def_id : Nat) :
    List Diagnostic :=
  default_check_mod_attrs module_def_id ++ spirv_check_mod_attrs module_def_id

/-- The first successfully parsed attribute of category `c`, in source
order, together with its span; what "first-seen value per category"
denotes in the aggregation claims. -/
def first_ok_of_cat (c : Category) (attrs : List ParseAttrResult) :
    Option (Spanned SpirvAttribute) :=
  attrs.findSome? fun r =>
    match r with
    | .ok (s, a) => if a.cat = c then some { value := a, span := s } else none
    | .error _ => none

/-- Whether an attribute belongs to one of the five (entry) `fn`
parameter categories. -/
def SpirvAttribute.isParamCategory : SpirvAttribute → Bool
  | .StorageClass _ | .Builtin _ | .DescriptorSet _ | .Binding _ | .Flat => true
  | _ => false

/-- The `Expected` description `valid_target` produces for each attribute
category (the string the illegal-position diagnostic names). -/
def expectedDescription : Category → String
  | .intrinsicType | .block => "struct"
  | .entry => "function"
  | .storageClass | .builtin | .descriptorSet | .binding | .flat => "function parameter"
  | .unrollLoops => "function or closure"

/-- The default aggregate has every slot empty. -/
theorem slot_default (c : Category) :
    AggregatedSpirvAttributes.default.slot c = none := by
  cases c <;> rfl

/-- Inserting an attribute never touches another category's slot,
whether the insert succeeds or conflicts. -/
theorem slot_try_insert_attr_ne (self : AggregatedSpirvAttributes)
    (a : SpirvAttribute) (s : Span) (c : Category) (h : c ≠ a.cat) :
    (self.try_insert_attr a s).1.slot c = self.slot c := by
  cases a <;> cases c <;>
    simp_all [SpirvAttribute.cat, AggregatedSpirvAttributes.slot,
      AggregatedSpirvAttributes.try_insert_attr]

/-- Inserting into an occupied slot leaves the aggregate unchanged and
returns the conflict carrying the stored occurrence's span and the
category's label. -/
theorem try_insert_attr_conflict (self : AggregatedSpirvAttributes)
    (a : SpirvAttribute) (s : Span) (p : Spanned SpirvAttribute)
    (h : self.slot a.cat = some p) :
    self.try_insert_attr a s = (self, .error ⟨p.span, categoryLabel a.cat⟩) := by
  cases a with
  | IntrinsicType v =>
      cases hf : self.intrinsic_type with
      | none => simp [AggregatedSpirvAttributes.slot, hf, SpirvAttribute.cat] at h
      | some q =>
          simp [AggregatedSpirvAttributes.slot, hf, SpirvAttribute.cat] at h
          simp [AggregatedSpirvAttributes.try_insert_attr, try_insert, hf,
            categoryLabel, SpirvAttribute.cat, ← h]
          rw [← hf]
  | Block =>
      cases hf : self.block with
      | none => simp [AggregatedSpirvAttributes.slot, hf, SpirvAttribute.cat] at h
      | some q =>
          simp [AggregatedSpirvAttributes.slot, hf, SpirvAttribute.cat] at h
          simp [AggregatedSpirvAttributes.try_insert_attr, try_insert, hf,
            categoryLabel, SpirvAttribute.cat, ← h]
          rw [← hf]
  | Entry v =>
      cases hf : self.entry with
      | none => simp [AggregatedSpirvAttributes.slot, hf, SpirvAttribute.cat] at h
      | some q =>
          simp [AggregatedSpirvAttributes.slot, hf, SpirvAttribute.cat] at h
          simp [AggregatedSpirvAttributes.try_insert_attr, try_insert, hf,
            categoryLabel, SpirvAttribute.cat, ← h]
          rw [← hf]
  | StorageClass v =>
      cases hf : self.storage_class with
      | none => simp [AggregatedSpirvAttributes.slot, hf, SpirvAttribute.cat] at h
      | some q =>
          simp [AggregatedSpirvAttributes.slot, hf, SpirvAttribute.cat] at h
          simp [AggregatedSpirvAttributes.try_insert_attr, try_insert, hf,
            categoryLabel, SpirvAttribute.cat, ← h]
          rw [← hf]
  | Builtin v =>
      cases hf : self.builtin with
      | none => simp [AggregatedSpirvAttributes.slot, hf, SpirvAttribute.cat] at h
      | some q =>
          simp [AggregatedSpirvAttributes.slot, hf, SpirvAttribute.cat] at h
          simp [AggregatedSpirvAttributes.try_insert_attr, try_insert, hf,
            categoryLabel, SpirvAttribute.cat, ← h]
          rw [← hf]
  | DescriptorSet v =>
      cases hf : self.descriptor_set with
      | none => simp [AggregatedSpirvAttributes.slot, hf, SpirvAttribute.cat] at h
      | some q =>
          simp [AggregatedSpirvAttributes.slot, hf, SpirvAttribute.cat] at h
          simp [AggregatedSpirvAttributes.try_insert_attr, try_insert, hf,
            categoryLabel, SpirvAttribute.cat, ← h]
          rw [← hf]
  | Binding v =>
      cases hf : self.binding with
      | none => simp [AggregatedSpirvAttributes.slot, hf, SpirvAttribute.cat] at h
      | some q =>
          simp [AggregatedSpirvAttributes.slot, hf, SpirvAttribute.cat] at h
          simp [AggregatedSpirvAttributes.try_insert_attr, try_insert, hf,
            categoryLabel, SpirvAttribute.cat, ← h]
          rw [← hf]
  | Flat =>
      cases hf : self.flat with
      | none => simp [AggregatedSpirvAttributes.slot, hf, SpirvAttribute.cat] at h
      | some q =>
          simp [AggregatedSpirvAttributes.slot, hf, SpirvAttribute.cat] at h
          simp [AggregatedSpirvAttributes.try_insert_attr, try_insert, hf,
            categoryLabel, SpirvAttribute.cat, ← h]
          rw [← hf]
  | UnrollLoops =>
      cases hf : self.unroll_loops with
      | none => simp [AggregatedSpirvAttributes.slot, hf, SpirvAttribute.cat] at h
      | some q =>
          simp [AggregatedSpirvAttributes.slot, hf, SpirvAttribute.cat] at h
          simp [AggregatedSpirvAttributes.try_insert_attr, try_insert, hf,
            categoryLabel, SpirvAttribute.cat, ← h]
          rw [← hf]

/-- Inserting into an empty slot succeeds and stores the value with its
span. -/
theorem try_insert_attr_ok (self : AggregatedSpirvAttributes)
    (a : SpirvAttribute) (s : Span) (h : self.slot a.cat = none) :
    (self.try_insert_attr a s).2 = .ok () ∧
    (self.try_insert_attr a s).1.slot a.cat = some ⟨a, s⟩ := by
  cases a with
  | IntrinsicType v =>
      cases hf : self.intrinsic_type with
      | some q => simp [AggregatedSpirvAttributes.slot, hf, SpirvAttribute.cat] at h
      | none =>
          simp [AggregatedSpirvAttributes.try_insert_attr, try_insert, hf,
            AggregatedSpirvAttributes.slot, SpirvAttribute.cat]
  | Block =>
      cases hf : self.block with
      | some q => simp [AggregatedSpirvAttributes.slot, hf, SpirvAttribute.cat] at h
      | none =>
          simp [AggregatedSpirvAttributes.try_insert_attr, try_insert, hf,
            AggregatedSpirvAttributes.slot, SpirvAttribute.cat]
  | Entry v =>
      cases hf : self.entry with
      | some q => simp [AggregatedSpirvAttributes.slot, hf, SpirvAttribute.cat] at h
      | none =>
          simp [AggregatedSpirvAttributes.try_insert_attr, try_insert, hf,
            AggregatedSpirvAttributes.slot, SpirvAttribute.cat]
  | StorageClass v =>
      cases hf : self.storage_class with
      | some q => simp [AggregatedSpirvAttributes.slot, hf, SpirvAttribute.cat] at h
      | none =>
          simp [AggregatedSpirvAttributes.try_insert_attr, try_insert, hf,
            AggregatedSpirvAttributes.slot, SpirvAttribute.cat]
  | Builtin v =>
      cases hf : self.builtin with
      | some q => simp [AggregatedSpirvAttributes.slot, hf, SpirvAttribute.cat] at h
      | none =>
          simp [AggregatedSpirvAttributes.try_insert_attr, try_insert, hf,
            AggregatedSpirvAttributes.slot, SpirvAttribute.cat]
  | DescriptorSet v =>
      cases hf : self.descriptor_set with
      | some q => simp [AggregatedSpirvAttributes.slot, hf, SpirvAttribute.cat] at h
      | none =>
          simp [AggregatedSpirvAttributes.try_insert_attr, try_insert, hf,
            AggregatedSpirvAttributes.slot, SpirvAttribute.cat]
  | Binding v =>
      cases hf : self.binding with
      | some q => simp [AggregatedSpirvAttributes.slot, hf, SpirvAttribute.cat] at h
      | none =>
          simp [AggregatedSpirvAttributes.try_insert_attr, try_insert, hf,
            AggregatedSpirvAttributes.slot, SpirvAttribute.cat]
  | Flat =>
      cases hf : self.flat with
      | some q => simp [AggregatedSpirvAttributes.slot, hf, SpirvAttribute.cat] at h
      | none =>
          simp [AggregatedSpirvAttributes.try_insert_attr, try_insert, hf,
            AggregatedSpirvAttributes.slot, SpirvAttribute.cat]
  | UnrollLoops =>
      cases hf : self.unroll_loops with
      | some q => simp [AggregatedSpirvAttributes.slot, hf, SpirvAttribute.cat] at h
      | none =>
          simp [AggregatedSpirvAttributes.try_insert_attr, try_insert, hf,
            AggregatedSpirvAttributes.slot, SpirvAttribute.cat]

/-- Once a category's slot is occupied by `p`, every further insert of
that category conflicts with `p` and leaves the aggregate untouched. -/
theorem run_inserts_all_conflict (agg : AggregatedSpirvAttributes)
    (c : Category) (p : Spanned SpirvAttribute) (hp : agg.slot c = some p)
    (xs : List (SpirvAttribute × Span)) (hall : ∀ q ∈ xs, (q.1).cat = c) :
    run_inserts agg xs =
      (agg, xs.map fun _ => .error ⟨p.span, categoryLabel c⟩) := by
  induction xs with
  | nil => rfl
  | cons x xs ih =>
      obtain ⟨a, s⟩ := x
      have hc : a.cat = c := hall (a, s) (List.mem_cons_self _ _)
      subst hc
      have hstep := try_insert_attr_conflict agg a s p hp
      simp [run_inserts, hstep, ih fun q hq => hall q (List.mem_cons_of_mem _ hq)]

/-- C1: in one aggregated set, the first insert for a category stores the
value and location and succeeds, and every subsequent insert for the same
category returns a conflict carrying the first occurrence's location and
the category's human-readable label, while the stored first value is
retained (the new value discarded), however many duplicates follow. -/
theorem C1_aggregator_first_wins (a₀ : SpirvAttribute) (s₀ : Span)
    (rest : List (SpirvAttribute × Span))
    (hall : ∀ p ∈ rest, (p.1).cat = a₀.cat) :
    (run_inserts AggregatedSpirvAttributes.default ((a₀, s₀) :: rest)).2 =
      .ok () :: (rest.map fun _ => .error ⟨s₀, categoryLabel a₀.cat⟩) ∧
    (run_inserts AggregatedSpirvAttributes.default ((a₀, s₀) :: rest)).1.slot a₀.cat =
      some ⟨a₀, s₀⟩ := by
  have h0 := slot_default a₀.cat
  have hok := try_insert_attr_ok AggregatedSpirvAttributes.default a₀ s₀ h0
  have hrest := run_inserts_all_conflict
    (AggregatedSpirvAttributes.default.try_insert_attr a₀ s₀).1 a₀.cat
    ⟨a₀, s₀⟩ hok.2 rest hall
  simp [run_inserts, hrest, hok.1, hok.2]

/-- Witness for C1: three same-category inserts at spans 1, 2, 3. -/
theorem C1_aggregator_first_wins_witness :
    (∀ p ∈ [((SpirvAttribute.Flat), (2 : Span)), (.Flat, 3)],
      (p.1).cat = SpirvAttribute.Flat.cat) ∧
    ((run_inserts AggregatedSpirvAttributes.default
        ((SpirvAttribute.Flat, (1 : Span)) :: [(.Flat, 2), (.Flat, 3)])).2 =
      .ok () :: ([((SpirvAttribute.Flat), (2 : Span)), (.Flat, 3)].map
        fun _ => .error ⟨1, categoryLabel SpirvAttribute.Flat.cat⟩) ∧
    (run_inserts AggregatedSpirvAttributes.default
        ((SpirvAttribute.Flat, (1 : Span)) :: [(.Flat, 2), (.Flat, 3)])).1.slot
        SpirvAttribute.Flat.cat = some ⟨.Flat, 1⟩) :=
  ⟨by decide, C1_aggregator_first_wins .Flat 1 [(.Flat, 2), (.Flat, 3)] (by decide)⟩

/-- Checking a single parameter-category attribute on a `Param` whose
parent is not an entry point emits exactly the orphaned-parameter
diagnostic and still aggregates the attribute. -/
theorem check_param_single (attr : SpirvAttribute)
    (hp : attr.isParamCategory = true) (span : Span)
    (parent_attrs : List ParseAttrResult)
    (hpe : parent_is_entry_point parent_attrs = false) :
    (check_spirv_attributes .Param [.ok (span, attr)] parent_attrs).2 =
      [.orphanedParam span] ∧
    (check_spirv_attributes .Param [.ok (span, attr)] parent_attrs).1.slot attr.cat =
      some ⟨attr, span⟩ := by
  cases attr <;> simp [SpirvAttribute.isParamCategory] at hp <;>
    simp [check_spirv_attributes, check_step, valid_target, hpe,
      AggregatedSpirvAttributes.try_insert_attr, try_insert,
      AggregatedSpirvAttributes.default, AggregatedSpirvAttributes.slot,
      SpirvAttribute.cat]

/-- C2: a parameter-category decoration is accepted and aggregated iff the
target kind is function-parameter; on any other target kind exactly one
illegal-position diagnostic is emitted, naming "function parameter" as
expected and the actual target kind, and nothing is aggregated. -/
theorem C2_param_category_targets (attr : SpirvAttribute)
    (hp : attr.isParamCategory = true) (span : Span) (target : Target)
    (parent_attrs : List ParseAttrResult) :
    (target = .Param →
      (check_spirv_attributes target [.ok (span, attr)] parent_attrs).1.slot attr.cat =
        some ⟨attr, span⟩ ∧
      ∀ d ∈ (check_spirv_attributes target [.ok (span, attr)] parent_attrs).2,
        ∀ sp e t, d ≠ .illegalPosition sp e t) ∧
    (target ≠ .Param →
      (check_spirv_attributes target [.ok (span, attr)] parent_attrs).2 =
        [.illegalPosition span "function parameter" target] ∧
      (check_spirv_attributes target [.ok (span, attr)] parent_attrs).1 =
        AggregatedSpirvAttributes.default) := by
  constructor
  · intro ht
    subst ht
    cases hpep : parent_is_entry_point parent_attrs <;>
      cases attr <;> simp [SpirvAttribute.isParamCategory] at hp <;>
      simp [check_spirv_attributes, check_step, valid_target, hpep,
        AggregatedSpirvAttributes.try_insert_attr, try_insert,
        AggregatedSpirvAttributes.default, AggregatedSpirvAttributes.slot,
        SpirvAttribute.cat]
  · intro hne
    cases attr <;> simp [SpirvAttribute.isParamCategory] at hp <;>
      cases target <;>
      simp_all [check_spirv_attributes, check_step, valid_target]

/-- Witness for C2: a storage-class decoration on a function (not a
parameter) yields exactly the illegal-position diagnostic and an empty
aggregate. -/
theorem C2_param_category_targets_witness :
    SpirvAttribute.isParamCategory (.StorageClass 7) = true ∧
    ((check_spirv_attributes .Fn [.ok ((2 : Span), .StorageClass 7)] []).2 =
      [.illegalPosition 2 "function parameter" .Fn] ∧
    (check_spirv_attributes .Fn [.ok ((2 : Span), .StorageClass 7)] []).1 =
      AggregatedSpirvAttributes.default) :=
  ⟨by decide,
    (C2_param_category_targets (.StorageClass 7) (by decide) 2 .Fn []).2 (by decide)⟩

/-- C3: a parameter-category decoration on a parameter of a function that
carries no entry-point decoration emits the orphaned-parameter diagnostic,
and the decoration is nevertheless still inserted into the aggregated
set. -/
theorem C3_orphaned_still_aggregated (attr : SpirvAttribute)
    (hp : attr.isParamCategory = true) (span : Span)
    (parent_attrs : List ParseAttrResult)
    (hpe : parent_is_entry_point parent_attrs = false) :
    (check_spirv_attributes .Param [.ok (span, attr)] parent_attrs).2 =
      [.orphanedParam span] ∧
    (check_spirv_attributes .Param [.ok (span, attr)] parent_attrs).1.slot attr.cat =
      some ⟨attr, span⟩ :=
  check_param_single attr hp span parent_attrs hpe

/-- Witness for C3: a built-in decoration on a parameter of an
undecorated function. -/
theorem C3_orphaned_still_aggregated_witness :
    SpirvAttribute.isParamCategory (.Builtin 0) = true ∧
    parent_is_entry_point [] = false ∧
    ((check_spirv_attributes .Param [.ok ((4 : Span), .Builtin 0)] []).2 =
      [.orphanedParam 4] ∧
    (check_spirv_attributes .Param [.ok ((4 : Span), .Builtin 0)] []).1.slot
      (SpirvAttribute.Builtin 0).cat = some ⟨.Builtin 0, 4⟩) :=
  ⟨by decide, by decide,
    C3_orphaned_still_aggregated (.Builtin 0) (by decide) 4 [] (by decide)⟩

/-- The entry-point-parent test is false when no parent attribute parsed
successfully to an entry-point decoration, whatever parse failures or
other attributes are present. -/
theorem parent_is_entry_point_eq_false (parent_attrs : List ParseAttrResult)
    (hno : ∀ s e, Except.ok (s, SpirvAttribute.Entry e) ∉ parent_attrs) :
    parent_is_entry_point parent_attrs = false := by
  rw [parent_is_entry_point, List.any_eq_false]
  intro r hr
  rcases r with ⟨sp, msg⟩ | ⟨sp, a⟩
  · simp
  · cases a <;> first | (rename_i e; exact absurd hr (hno sp e)) | simp

/-- C4: an entry-point decoration is legal iff the target is a free
function, a trait method with a body, or an inherent method; on any other
target, including a trait method declaration without a body, the
illegal-position diagnostic names "function" as expected. -/
theorem C4_entry_point_targets (e : Entry) (span : Span) (target : Target)
    (parent_attrs : List ParseAttrResult) :
    ((target = .Fn ∨ target = .Method (.Trait true) ∨ target = .Method .Inherent) →
      check_spirv_attributes target [.ok (span, .Entry e)] parent_attrs =
        ({ AggregatedSpirvAttributes.default with entry := some ⟨e, span⟩ }, [])) ∧
    (¬(target = .Fn ∨ target = .Method (.Trait true) ∨ target = .Method .Inherent) →
      check_spirv_attributes target [.ok (span, .Entry e)] parent_attrs =
        (AggregatedSpirvAttributes.default,
          [.illegalPosition span "function" target])) := by
  constructor
  · rintro (rfl | rfl | rfl) <;>
      simp [check_spirv_attributes, check_step, valid_target,
        AggregatedSpirvAttributes.try_insert_attr, try_insert,
        AggregatedSpirvAttributes.default]
  · intro h
    cases target <;> try (rename_i k; cases k)
    all_goals try (rename_i b; cases b)
    all_goals
      simp_all [check_spirv_attributes, check_step, valid_target]

/-- Witness for C4: an entry-point decoration on a trait method
declaration without a body is rejected, naming "function" as expected. -/
theorem C4_entry_point_targets_witness :
    check_spirv_attributes (.Method (.Trait false))
        [.ok ((3 : Span), .Entry (Entry.fromExecutionModel 0))] [] =
      (AggregatedSpirvAttributes.default,
        [.illegalPosition 3 "function" (.Method (.Trait false))]) :=
  (C4_entry_point_targets (Entry.fromExecutionModel 0) 3
    (.Method (.Trait false)) []).2 (by decide)

/-- Folding the macro-level scan accumulates one rejection per
`spirv`-named attribute, in order, onto the accumulator. -/
theorem check_invalid_foldl (raw : List Attribute) (acc : List Diagnostic) :
    raw.foldl
      (fun ds attr =>
        if attr.name = "spirv" then ds ++ [.macroLevelSpirv attr.span] else ds)
      acc =
    acc ++ (raw.filter fun a => a.name = "spirv").map
      fun a => Diagnostic.macroLevelSpirv a.span := by
  induction raw generalizing acc with
  | nil => simp
  | cons x xs ih =>
      by_cases hx : x.name = "spirv" <;> simp [hx, ih]

/-- C5: no decoration category is legal on a macro-definition target — the
walker rejects each with an illegal-position error and aggregates
nothing — and the secondary scan rejects every `spirv`-named annotation
among non-exported macro attributes outright. -/
theorem C5_macro_level_rejection (attr : SpirvAttribute) (span : Span)
    (parent_attrs : List ParseAttrResult) (raw : List Attribute) :
    check_spirv_attributes .MacroDef [.ok (span, attr)] parent_attrs =
      (AggregatedSpirvAttributes.default,
        [.illegalPosition span (expectedDescription attr.cat) .MacroDef]) ∧
    check_invalid_macro_level_spirv_attr raw =
      (raw.filter fun a => a.name = "spirv").map
        fun a => Diagnostic.macroLevelSpirv a.span := by
  constructor
  · cases attr <;>
      simp [check_spirv_attributes, check_step, valid_target,
        expectedDescription, SpirvAttribute.cat]
  · exact check_invalid_foldl raw []

/-- C6: an unroll-loops decoration is legal iff the target is a free
function, a closure, a trait method with a body, or an inherent method;
otherwise the illegal-position diagnostic names "function or closure" as
expected. -/
theorem C6_unroll_loops_targets (span : Span) (target : Target)
    (parent_attrs : List ParseAttrResult) :
    ((target = .Fn ∨ target = .Closure ∨ target = .Method (.Trait true) ∨
        target = .Method .Inherent) →
      check_spirv_attributes target [.ok (span, .UnrollLoops)] parent_attrs =
        ({ AggregatedSpirvAttributes.default with unroll_loops := some ⟨(), span⟩ }, [])) ∧
    (¬(target = .Fn ∨ target = .Closure ∨ target = .Method (.Trait true) ∨
        target = .Method .Inherent) →
      check_spirv_attributes target [.ok (span, .UnrollLoops)] parent_attrs =
        (AggregatedSpirvAttributes.default,
          [.illegalPosition span "function or closure" target])) := by
  constructor
  · rintro (rfl | rfl | rfl | rfl) <;>
      simp [check_spirv_attributes, check_step, valid_target,
        AggregatedSpirvAttributes.try_insert_attr, try_insert,
        AggregatedSpirvAttributes.default]
  · intro h
    cases target <;> try (rename_i k; cases k)
    all_goals try (rename_i b; cases b)
    all_goals
      simp_all [check_spirv_attributes, check_step, valid_target]

/-- Witness for C6: an unroll-loops decoration on a function parameter is
rejected, naming "function or closure" as expected. -/
theorem C6_unroll_loops_targets_witness :
    check_spirv_attributes .Param [.ok ((9 : Span), .UnrollLoops)] [] =
      (AggregatedSpirvAttributes.default,
        [.illegalPosition 9 "function or closure" .Param]) :=
  (C6_unroll_loops_targets 9 .Param []).2 (by decide)

/-- C10: the entry-point-parent test considers only successfully parsed
parent attributes: when no parent attribute parses to an entry-point
decoration — even if a malformed entry-point annotation is present — a
parameter-category decoration on the parameter draws the
orphaned-parameter diagnostic. -/
theorem C10_only_parsed_parent_attrs (attr : SpirvAttribute)
    (hp : attr.isParamCategory = true) (span : Span)
    (parent_attrs : List ParseAttrResult)
    (hno : ∀ s e, Except.ok (s, SpirvAttribute.Entry e) ∉ parent_attrs) :
    (check_spirv_attributes .Param [.ok (span, attr)] parent_attrs).2 =
      [.orphanedParam span] :=
  (check_param_single attr hp span parent_attrs
    (parent_is_entry_point_eq_false parent_attrs hno)).1

/-- Witness for C10: the parent carries a malformed (unparsable)
entry-point annotation and an unrelated parsed attribute; the orphaned
diagnostic is still emitted. -/
theorem C10_only_parsed_parent_attrs_witness :
    SpirvAttribute.isParamCategory (.DescriptorSet 0) = true ∧
    (∀ s e, Except.ok (s, SpirvAttribute.Entry e) ∉
      ([.error (5, "malformed entry-point attribute"), .ok (6, .Flat)] :
        List ParseAttrResult)) ∧
    (check_spirv_attributes .Param [.ok ((1 : Span), .DescriptorSet 0)]
      [.error (5, "malformed entry-point attribute"), .ok (6, .Flat)]).2 =
      [.orphanedParam 1] :=
  ⟨by decide, by simp,
    C10_only_parsed_parent_attrs (.DescriptorSet 0) (by decide) 1
      [.error (5, "malformed entry-point attribute"), .ok (6, .Flat)] (by simp)⟩

/-- A parse failure at the head of the stream does not affect which
attribute is the first of a category. -/
theorem first_ok_of_cat_cons_error (c : Category) (x : Span × String)
    (rest : List ParseAttrResult) :
    first_ok_of_cat c (.error x :: rest) = first_ok_of_cat c rest := rfl

/-- A successfully parsed attribute of category `c` at the head of the
stream is the first of its category. -/
theorem first_ok_of_cat_cons_ok_same (c : Category) (sp : Span)
    (a : SpirvAttribute) (rest : List ParseAttrResult) (h : a.cat = c) :
    first_ok_of_cat c (.ok (sp, a) :: rest) = some ⟨a, sp⟩ := by
  simp [first_ok_of_cat, List.findSome?, h]

/-- A successfully parsed attribute of another category at the head of
the stream does not affect which attribute is the first of category
`c`. -/
theorem first_ok_of_cat_cons_ok_ne (c : Category) (sp : Span)
    (a : SpirvAttribute) (rest : List ParseAttrResult) (h : a.cat ≠ c) :
    first_ok_of_cat c (.ok (sp, a) :: rest) = first_ok_of_cat c rest := by
  simp [first_ok_of_cat, List.findSome?, h]

/-- Folding the codegen-path loop fills each slot, if still empty, with
the first successfully parsed attribute of its category. -/
theorem parse_fold_slot (attrs : List ParseAttrResult)
    (agg : AggregatedSpirvAttributes) (ds : List Diagnostic) (c : Category) :
    ((attrs.foldl parse_step (agg, ds)).1).slot c =
      (agg.slot c).or (first_ok_of_cat c attrs) := by
  induction attrs generalizing agg ds with
  | nil => simp [first_ok_of_cat]
  | cons r rest ih =>
      rcases r with ⟨sp, msg⟩ | ⟨sp, a⟩
      · have h1 : List.foldl parse_step (agg, ds) (.error (sp, msg) :: rest) =
            List.foldl parse_step (agg, ds ++ [.delayedBug sp msg]) rest := by
          simp [List.foldl, parse_step]
        rw [h1, ih, first_ok_of_cat_cons_error]
      · rcases hstep : agg.try_insert_attr a sp with ⟨agg', res⟩
        have h1 : List.foldl parse_step (agg, ds) (.ok (sp, a) :: rest) =
            List.foldl parse_step (agg',
              match res with
              | .ok _ => ds
              | .error m =>
                  ds ++ [.delayedBug sp ("multiple " ++ m.category ++ " attributes")]) rest := by
          cases res with
          | ok u => cases u; simp [List.foldl, parse_step, hstep]
          | error m => simp [List.foldl, parse_step, hstep]
        rw [h1, ih]
        by_cases hc : c = a.cat
        · subst hc
          cases hsl : agg.slot a.cat with
          | none =>
              have hok := try_insert_attr_ok agg a sp hsl
              rw [hstep] at hok
              simp only at hok
              rw [hok.2]
              rw [first_ok_of_cat_cons_ok_same a.cat sp a rest rfl]
              rfl
          | some p =>
              have hcf := try_insert_attr_conflict agg a sp p hsl
              rw [hstep] at hcf
              have hae : agg' = agg := congrArg Prod.fst hcf
              subst hae
              rw [hsl]
              rfl
        · have hne := slot_try_insert_attr_ne agg a sp c hc
          rw [hstep] at hne
          simp only at hne
          rw [hne, first_ok_of_cat_cons_ok_ne _ _ _ _ (fun h => hc h.symm)]

/-- Every diagnostic the codegen-path loop adds is a delayed bug. -/
theorem parse_fold_delayed (attrs : List ParseAttrResult)
    (agg : AggregatedSpirvAttributes) (ds : List Diagnostic)
    (hds : ∀ d ∈ ds, d.isDelayedBug = true) :
    ∀ d ∈ (attrs.foldl parse_step (agg, ds)).2, d.isDelayedBug = true := by
  induction attrs generalizing agg ds with
  | nil => exact hds
  | cons r rest ih =>
      rcases r with ⟨sp, msg⟩ | ⟨sp, a⟩
      · refine ih agg (ds ++ [.delayedBug sp msg]) ?_
        intro d hd
        rcases List.mem_append.1 hd with h | h
        · exact hds d h
        · simp at h; subst h; rfl
      · rcases hstep : agg.try_insert_attr a sp with ⟨agg', res⟩
        cases res with
        | ok u =>
            cases u
            have h1 : List.foldl parse_step (agg, ds) (.ok (sp, a) :: rest) =
                List.foldl parse_step (agg', ds) rest := by
              simp [List.foldl, parse_step, hstep]
            rw [h1]
            exact ih agg' ds hds
        | error m =>
            have h1 : List.foldl parse_step (agg, ds) (.ok (sp, a) :: rest) =
                List.foldl parse_step
                  (agg', ds ++ [.delayedBug sp ("multiple " ++ m.category ++ " attributes")]) rest := by
              simp [List.foldl, parse_step, hstep]
            rw [h1]
            refine ih agg' _ ?_
            intro d hd
            rcases List.mem_append.1 hd with h | h
            · exact hds d h
            · simp at h; subst h; rfl

/-- C8: in the codegen aggregation path, every parse failure or insertion
conflict is reported as a delayed internal bug, never as a user-facing
diagnostic, the offending annotation is skipped, and the returned
aggregate holds the first-seen value of every category. -/
theorem C8_codegen_parse_policy (attrs : List ParseAttrResult) :
    (∀ d ∈ (AggregatedSpirvAttributes.parse attrs).2, d.isDelayedBug = true) ∧
    ∀ c, (AggregatedSpirvAttributes.parse attrs).1.slot c = first_ok_of_cat c attrs := by
  constructor
  · exact parse_fold_delayed attrs AggregatedSpirvAttributes.default [] (by simp)
  · intro c
    rw [AggregatedSpirvAttributes.parse, parse_fold_slot, slot_default]
    simp

/-- Witness for C8: a malformed annotation between two block attributes;
its report is a delayed bug and the first block attribute is kept. -/
theorem C8_codegen_parse_policy_witness :
    Diagnostic.isDelayedBug (.delayedBug 2 "bad") = true ∧
    (AggregatedSpirvAttributes.parse
        [.ok (1, .Block), .error (2, "bad"), .ok (3, .Block)]).1.slot .block =
      first_ok_of_cat .block [.ok (1, .Block), .error (2, "bad"), .ok (3, .Block)] :=
  ⟨(C8_codegen_parse_policy [.ok (1, .Block), .error (2, "bad"), .ok (3, .Block)]).1
      (.delayedBug 2 "bad") (by decide),
    (C8_codegen_parse_policy [.ok (1, .Block), .error (2, "bad"), .ok (3, .Block)]).2 .block⟩

/-- C7: the installed per-module attribute-check provider always yields
the host's default check's output first, unconditionally and in full,
followed by the decoration validation walk's output over the same
module. -/
theorem C7_host_default_first (d s : Nat → List Diagnostic) (m : Nat) :
    (provided_check_mod_attrs d s m).take (d m).length = d m ∧
    (provided_check_mod_attrs d s m).drop (d m).length = s m :=
  ⟨List.take_left _ _, List.drop_left _ _⟩

/-- C9: for a slice of at most 3 words, building an `ExecutionModeExtra`
succeeds and reading it back yields the original slice; longer slices
make construction fail. -/
theorem C9_execution_mode_extra_roundtrip (a : List Nat) :
    (a.length ≤ 3 →
      ∃ e, ExecutionModeExtra.new a = some e ∧ e.as_ref = a) ∧
    (3 < a.length → ExecutionModeExtra.new a = none) := by
  constructor
  · intro h
    refine ⟨⟨a ++ List.replicate (3 - a.length) 0, a.length⟩, ?_, ?_⟩
    · simp [ExecutionModeExtra.new, h]
    · simp [ExecutionModeExtra.as_ref]
  · intro h
    simp [ExecutionModeExtra.new, Nat.not_le.2 h]

/-- Witness for C9: round-trip of the two-word slice `[1, 2]`, and failure
on the four-word slice `[5, 6, 7, 8]`. -/
theorem C9_execution_mode_extra_roundtrip_witness :
    ([1, 2] : List Nat).length ≤ 3 ∧
    (∃ e, ExecutionModeExtra.new [1, 2] = some e ∧ e.as_ref = [1, 2]) ∧
    (3 < ([5, 6, 7, 8] : List Nat).length ∧
      ExecutionModeExtra.new [5, 6, 7, 8] = none) :=
  ⟨by decide, (C9_execution_mode_extra_roundtrip [1, 2]).1 (by decide),
    by decide, (C9_execution_mode_extra_roundtrip [5, 6, 7, 8]).2 (by decide)⟩
